import Mathlib

/-!
Shallow embedding of the Wavelink session coordinator (`wavelink/player.py`
and `wavelink/track.py`) and proofs of the specification's claims about it.

Conventions of the embedding:
* Python `int` millisecond timestamps and positions are modelled as `Int`
  (the source uses `time.time() * 1000` floats; all claim-relevant
  arithmetic is integral).
* Fallible operations return `Except PyErr _`; a raised Python exception is
  an `Except.error`.
* Network sends through `Node._send` may fail at the transport level (the
  spec's §7 "transport-level failures on command sends"); delivery success
  is an oracle `ok : Nat → Cmd → Bool` indexed by target node id and
  command.  Each operation also returns the list of events it performed
  (attempted sends, registry mutations, node reassignment), in order.
-/

/-- Python exceptions raised by the embedded code.  `wavelink msg` is
`errors.WavelinkException(msg)` as raised in `player.py`; `transport` is a
transport-level send failure (modelled from the spec §7: `Node._send` is
not under `src/`); `keyError` / `typeError` are the builtin Python
exceptions. -/
inductive PyErr
  | wavelink (msg : String)
  | transport
  | keyError
  | typeError
deriving DecidableEq, Repr

/-- Control-channel command payloads built in `player.py`.  Field layout
follows the dicts passed to `Node._send`; an `Option` field is present in
the payload iff it is `some` (e.g. `endTime`, and `noReplace` which the
changeover `play` payload omits). -/
inductive Cmd
  | voiceUpdate (guildId sessionId event : String)
  | play (guildId track : String) (noReplace : Option Bool) (startTime : Int)
      (endTime : Option Int)
  | stop (guildId : String)
  | pause (guildId : String) (flag : Bool)
  | volume (guildId : String) (vol : Int)
  | seek (guildId : String) (position : Int)
  | destroy (guildId : String)
deriving DecidableEq, Repr

/-- Events performed by an operation, in order: registry mutations on a
node, node reassignment, field assignment of `last_update`, node
close/open toggles, and attempted command sends. -/
inductive Ev
  | closeNode (n : Nat)
  | openNode (n : Nat)
  | delPlayer (n gid : Nat)
  | addPlayer (n gid : Nat)
  | setNode (n : Nat)
  | setLastUpdate (t : Int)
  | send (n : Nat) (c : Cmd)
deriving DecidableEq, Repr

/-- The `_voice_state` dict of a `Player`.  The source only ever stores the
keys `sessionId` and `event` in it (and `clear()`s it), so it is faithfully
a pair of optional values; the dict holds a key iff the field is `some`. -/
structure VoiceState where
  sessionId : Option String
  event : Option String
deriving DecidableEq, Repr

/-- The subset of the raw Lavalink `info` dict that `Track.__init__`
reads via `info.get(...)`; `.get` on a missing key yields `none`. -/
structure TrackInfo where
  title : Option String
  identifier : Option String
  length : Option Int
  uri : Option String
  author : Option String
  isStream : Option Bool
deriving DecidableEq, Repr

/-- `Track` from `track.py`: every `__slots__` field set by `__init__`. -/
structure Track where
  id : String
  info : TrackInfo
  query : Option String
  title : Option String
  identifier : Option String
  ytid : Option String
  length : Option Int
  duration : Option Int
  uri : Option String
  author : Option String
  isStream : Option Bool
  dead : Bool
  thumb : Option String
deriving DecidableEq, Repr

/-- Character class of the source regex `[a-zA-Z0-9_-]`. -/
def isTrackIdChar (c : Char) : Bool :=
  (('a' ≤ c && c ≤ 'z') || ('A' ≤ c && c ≤ 'Z') || ('0' ≤ c && c ≤ '9')
    || c = '_' || c = '-')

/-- Python `re.match(r"^[a-zA-Z0-9_-]{11}$", s) is not None`.  In Python,
`$` also matches just before a single trailing newline, so a 12-character
string whose first 11 characters are in the class and whose last is `\n`
matches as well. -/
def re_match_ytid (s : String) : Bool :=
  let cs := s.data
  (cs.length == 11 && cs.all isTrackIdChar)
    || (cs.length == 12 && (cs.take 11).all isTrackIdChar
          && cs.getLast? == some '\n')

/-- `Track.__init__(id_, info, query=None)`.  `re.match` is applied to
`info.get('identifier')` unconditionally; when the key is absent (`None`),
Python raises `TypeError: expected string or bytes-like object`, hence the
`Except`.  `if self.ytid:` is truthiness of an `Option` whose payload, when
present, matched a non-empty pattern, so it is `isSome`. -/
def Track.ofInfo (id_ : String) (info : TrackInfo)
    (query : Option String := none) : Except PyErr Track :=
  match info.identifier with
  | none => .error .typeError
  | some ident =>
    let ytid : Option String := if re_match_ytid ident then some ident else none
    let thumb : Option String :=
      ytid.map (fun y => "https://img.youtube.com/vi/" ++ y ++ "/maxresdefault.jpg")
    .ok { id := id_, info := info, query := query, title := info.title,
          identifier := some ident, ytid := ytid, length := info.length,
          duration := info.length, uri := info.uri, author := info.author,
          isStream := info.isStream, dead := false, thumb := thumb }

/-- `Player` session state from `player.py`.  `playerId` is the object's
identity (what a node registry entry points at).  `last_update`,
`last_position` and `position_timestamp` are `Optional[float] = None` in
the source but are assigned numbers (in `play` / `update_state`) before
any claim-relevant read — `_track` is only ever set in `play`, after they
are zeroed — so they are modelled as `Int` initialised to 0. -/
structure Player where
  playerId : Nat
  guildId : Nat
  channelId : Nat
  nodeId : Nat
  voiceState : VoiceState
  connected : Bool
  last_update : Int
  last_position : Int
  position_timestamp : Int
  volume : Int
  paused : Bool
  track : Option Track
deriving DecidableEq, Repr

/-- Session state after `Player.__init__` (node assignment aside):
`_voice_state = {}`, `_connected = False`, timing fields unset, volume 100,
not paused, no track. -/
def Player.fresh (playerId guildId channelId nodeId : Nat) : Player :=
  { playerId := playerId, guildId := guildId, channelId := channelId,
    nodeId := nodeId, voiceState := ⟨none, none⟩, connected := false,
    last_update := 0, last_position := 0, position_timestamp := 0,
    volume := 100, paused := false, track := none }

def Player.is_connected (p : Player) : Bool := p.connected

def Player.is_playing (p : Player) : Bool :=
  p.is_connected && p.track.isSome

def Player.is_paused (p : Player) : Bool := p.paused

/-- `Player.position` property. `nowMs` is `time.time() * 1000`.  Reads of
`self.track.duration` when the raw info had no `length` key are comparisons
with `None` and raise `TypeError` in Python, hence the `Except`. -/
def Player.position (p : Player) (nowMs : Int) : Except PyErr Int :=
  if ¬ p.is_playing then .ok 0
  else
    match p.track with
    | none => .ok 0
    | some t =>
      match t.duration with
      | none => .error .typeError
      | some d =>
        if p.is_paused then .ok (min p.last_position d)
        else
          let difference := nowMs - p.last_update
          let position := p.last_position + difference
          if position > d then .ok 0
          else .ok (min position d)

/-- `Player._dispatch_voice_update`: sends the merged `voiceUpdate` iff the
`_voice_state` dict's key set is exactly `{'sessionId', 'event'}`; since the
dict only ever holds these two keys, that is "both fragments present".
Returns the attempted sends. -/
def Player.dispatch_voice_update (p : Player) : List Cmd :=
  match p.voiceState.sessionId, p.voiceState.event with
  | some sid, some ev => [Cmd.voiceUpdate (toString p.guildId) sid ev]
  | _, _ => []

/-- `Player.on_voice_server_update(data)`: store the connection-event blob
(modelled as an opaque string) under `event`, then attempt dispatch. -/
def Player.on_voice_server_update (p : Player) (data : String) :
    Player × List Cmd :=
  let p := { p with voiceState := { p.voiceState with event := some data } }
  (p, p.dispatch_voice_update)

/-- `Player.on_voice_state_update(data)`: store `data['session_id']` under
`sessionId` (this happens before the disconnect check); if
`data['channel_id']` is null the player is disconnecting, so
`_voice_state.clear()` and no dispatch; otherwise update the channel
reference and attempt dispatch. -/
def Player.on_voice_state_update (p : Player) (session_id : String)
    (channel_id : Option Nat) : Player × List Cmd :=
  let p := { p with voiceState := { p.voiceState with sessionId := some session_id } }
  match channel_id with
  | none => ({ p with voiceState := ⟨none, none⟩ }, [])
  | some cid =>
    let p := { p with channelId := cid }
    (p, p.dispatch_voice_update)

/-- An inbound gateway event driving the voice handshake. -/
inductive VIn
  | serverUpdate (event : String)
  | stateUpdate (session_id : String) (channel_id : Option Nat)
deriving DecidableEq, Repr

/-- One gateway callback. -/
def voiceStep (p : Player) : VIn → Player × List Cmd
  | .serverUpdate e => p.on_voice_server_update e
  | .stateUpdate s c => p.on_voice_state_update s c

/-- Run a sequence of gateway callbacks, concatenating the dispatched
`voiceUpdate` commands in order. -/
def runVoice (p : Player) : List VIn → Player × List Cmd
  | [] => (p, [])
  | i :: is =>
    let r := voiceStep p i
    let r2 := runVoice r.1 is
    (r2.1, r.2 ++ r2.2)

/-- `Player.play(track, replace=True, start=0, end=0)`.  If `replace or not
self.is_playing()` the three timing fields are zeroed and `paused` cleared,
`_track` is assigned, and one `play` payload (with `noReplace = not
replace`, `startTime = start`, and `endTime` only when `end > 0`) is sent;
otherwise the call returns without touching anything.  The state mutations
precede the send, so they survive a transport failure. -/
def Player.play (p : Player) (ok : Nat → Cmd → Bool) (track : Track)
    (replace : Bool := true) (start : Int := 0) (endMs : Int := 0) :
    Except PyErr Unit × Player × List Ev :=
  if replace || !p.is_playing then
    let p := { p with last_update := 0, last_position := 0,
                      position_timestamp := 0, paused := false,
                      track := some track }
    let payload := Cmd.play (toString p.guildId) track.id (some (!replace))
        start (if endMs > 0 then some endMs else none)
    if ok p.nodeId payload then (.ok (), p, [.send p.nodeId payload])
    else (.error .transport, p, [.send p.nodeId payload])
  else (.ok (), p, [])

/-- `Player.stop()`: send the `stop` payload, then clear `_track`.  A
transport failure propagates before the clear, leaving `_track` intact. -/
def Player.stop (p : Player) (ok : Nat → Cmd → Bool) :
    Except PyErr Unit × Player × List Ev :=
  let c := Cmd.stop (toString p.guildId)
  if ok p.nodeId c then (.ok (), { p with track := none }, [.send p.nodeId c])
  else (.error .transport, p, [.send p.nodeId c])

/-- `Player.set_pause(pause)`: send the `pause` payload, then set
`_paused`.  A transport failure propagates before the assignment. -/
def Player.set_pause (p : Player) (ok : Nat → Cmd → Bool) (pause : Bool) :
    Except PyErr Unit × Player × List Ev :=
  let c := Cmd.pause (toString p.guildId) pause
  if ok p.nodeId c then (.ok (), { p with paused := pause }, [.send p.nodeId c])
  else (.error .transport, p, [.send p.nodeId c])

/-- `Player.set_volume(volume)`: `self.volume = max(min(volume, 1000), 0)`
happens first, then the send — the stored mirror holds the clamped value
even when the send fails. -/
def Player.set_volume (p : Player) (ok : Nat → Cmd → Bool) (volume : Int) :
    Except PyErr Unit × Player × List Ev :=
  let p := { p with volume := max (min volume 1000) 0 }
  let c := Cmd.volume (toString p.guildId) p.volume
  if ok p.nodeId c then (.ok (), p, [.send p.nodeId c])
  else (.error .transport, p, [.send p.nodeId c])

/-- Modelled from the spec: the `Node` class (`node.py` is not under
`src/`).  A node carries an open/closed eligibility flag (`close()` /
`open()` mark it unavailable/available for new session assignments, §4.4
step 2) and the `players` registry, a dict mapping a guild id to the
`playerId` of the session registered under it. -/
structure Node where
  isOpen : Bool
  players : List (Nat × Nat)
deriving DecidableEq, Repr

/-- Dict lookup in a registry. -/
def lookupReg (ps : List (Nat × Nat)) (gid : Nat) : Option Nat :=
  match ps with
  | [] => none
  | kv :: rest => if kv.1 = gid then some kv.2 else lookupReg rest gid

/-- Dict `del ps[gid]` after the key has been checked present. -/
def removeReg (ps : List (Nat × Nat)) (gid : Nat) : List (Nat × Nat) :=
  match ps with
  | [] => []
  | kv :: rest => if kv.1 = gid then removeReg rest gid
                  else kv :: removeReg rest gid

/-- Dict assignment `ps[gid] = pid` (replaces an existing entry). -/
def insertReg (ps : List (Nat × Nat)) (gid pid : Nat) : List (Nat × Nat) :=
  (gid, pid) :: removeReg ps gid

/-- The world a changeover acts on: the session plus every node, looked up
by node id. -/
structure World where
  player : Player
  nodes : Nat → Node

def World.updNode (w : World) (nid : Nat) (f : Node → Node) : World :=
  { w with nodes := fun m => if m = nid then f (w.nodes m) else w.nodes m }

/-- The world after `self.node.close()` (step 2 of §4.4 marks the current
node ineligible while the selector runs). -/
def World.closeCurrent (w : World) : World :=
  w.updNode w.player.nodeId (fun n => { n with isOpen := false })

/-- The final `if self.volume != 100:` re-send of `change_node`. -/
def change_node_vol (w : World) (nid : Nat) (ok : Nat → Cmd → Bool)
    (tr : List Ev) : Except PyErr Unit × World × List Ev :=
  if w.player.volume ≠ 100 then
    let c4 := Cmd.volume (toString w.player.guildId) w.player.volume
    if !ok nid c4 then (.error .transport, w, tr ++ [Ev.send nid c4])
    else (.ok (), w, tr ++ [Ev.send nid c4])
  else (.ok (), w, tr)

/-- Track replay (`if self._track:`) at the end of `change_node`, followed
by the volume re-send: a `play` at `startTime=int(self.position)`, then
`self.last_update = time.time() * 1000`, then a conditional `pause`. -/
def change_node_track (w : World) (nid : Nat) (ok : Nat → Cmd → Bool)
    (now : Int) (tr : List Ev) : Except PyErr Unit × World × List Ev :=
  let gidS := toString w.player.guildId
  match w.player.track with
  | none => change_node_vol w nid ok tr
  | some t =>
    match w.player.position now with
    | .error e => (.error e, w, tr)
    | .ok pos =>
      let c2 := Cmd.play gidS t.id none pos none
      let tr := tr ++ [Ev.send nid c2]
      if !ok nid c2 then (.error .transport, w, tr)
      else
        let w := { w with player := { w.player with last_update := now } }
        let tr := tr ++ [Ev.setLastUpdate now]
        if w.player.is_paused then
          let c3 := Cmd.pause gidS w.player.paused
          if !ok nid c3 then (.error .transport, w, tr ++ [Ev.send nid c3])
          else change_node_vol w nid ok (tr ++ [Ev.send nid c3])
        else change_node_vol w nid ok tr

/-- The tail of `Player.change_node` once the target node `nid` is chosen:
`del old_node.players[guild.id]` (KeyError if absent), best-effort-less
`destroy` send to the old node, `self.node = node` plus registry insertion,
voice-update re-dispatch, track replay with `startTime=int(self.position)`
followed by `self.last_update = now` and a conditional `pause`, and the
conditional `volume` re-send.  Any failing send aborts with the state
reached so far — the source has no `try/except` anywhere in this path. -/
def change_node_tail (w : World) (nid : Nat) (ok : Nat → Cmd → Bool)
    (now : Int) : Except PyErr Unit × World × List Ev :=
  let p := w.player
  let oldId := p.nodeId
  let gid := p.guildId
  let gidS := toString gid
  match lookupReg (w.nodes oldId).players gid with
  | none => (.error .keyError, w, [])
  | some _ =>
    let w := w.updNode oldId (fun n => { n with players := removeReg n.players gid })
    let c0 := Cmd.destroy gidS
    let tr := [Ev.delPlayer oldId gid, Ev.send oldId c0]
    if !ok oldId c0 then (.error .transport, w, tr)
    else
      let w := { w with player := { w.player with nodeId := nid } }
      let w := w.updNode nid (fun n => { n with players := insertReg n.players gid p.playerId })
      let tr := tr ++ [Ev.setNode nid, Ev.addPlayer nid gid]
      -- `if self._voice_state:` then `_dispatch_voice_update()`; the inner
      -- send happens iff both fragments are present, so a non-empty dict
      -- with one fragment is a no-op and execution continues.
      let vu? : Option Cmd :=
        match p.voiceState.sessionId, p.voiceState.event with
        | some sid, some ev => some (Cmd.voiceUpdate gidS sid ev)
        | _, _ => none
      match vu? with
      | some c1 =>
        if !ok nid c1 then (.error .transport, w, tr ++ [Ev.send nid c1])
        else change_node_track w nid ok now (tr ++ [Ev.send nid c1])
      | none => change_node_track w nid ok now tr

/-- `Player.change_node(node)`.  With an explicit target equal to the
current node it raises `WavelinkException('Player is already on this
node.')`; with no explicit target it closes the current node, consults the
external selector (`client.get_best_node`, not under `src/` — modelled as
a parameter), reopens the current node, and raises
`WavelinkException('No Nodes available for changeover.')` when the
selector yields nothing; otherwise it runs `change_node_tail`. -/
def change_node (w : World) (explicit : Option Nat)
    (selector : World → Option Nat) (ok : Nat → Cmd → Bool) (now : Int) :
    Except PyErr Unit × World × List Ev :=
  match explicit with
  | some nid =>
    if nid = w.player.nodeId then
      (.error (.wavelink "Player is already on this node."), w, [])
    else change_node_tail w nid ok now
  | none =>
    let oldId := w.player.nodeId
    let w1 := w.closeCurrent
    let sel := selector w1
    let w2 := w1.updNode oldId (fun n => { n with isOpen := true })
    let tr0 := [Ev.closeNode oldId, Ev.openNode oldId]
    match sel with
    | none => (.error (.wavelink "No Nodes available for changeover."), w2, tr0)
    | some nid =>
      let r := change_node_tail w2 nid ok now
      (r.1, r.2.1, tr0 ++ r.2.2)

/-- The commands sent to node `n`, in order, within an event trace. -/
def sendsTo (tr : List Ev) (n : Nat) : List Cmd :=
  tr.filterMap (fun e =>
    match e with
    | .send m c => if m = n then some c else none
    | _ => none)

/-- The registry mutations within an event trace, in order. -/
def regEvents (tr : List Ev) : List Ev :=
  tr.filter (fun e =>
    match e with
    | .delPlayer _ _ => true
    | .addPlayer _ _ => true
    | _ => false)

/-- Position formula exactly as the specification words it (spec-side
definition, for comparison against `Player.position`): 0 when not
connected or no track; `min(lastPositionMs, durationMs)` when paused;
otherwise `lastPositionMs + (now_ms − lastUpdateTimestampMs)`, replaced by
0 when that sum exceeds the duration and otherwise clamped to at most the
duration.  `dur` is the track's duration when a track is loaded. -/
def positionSpec (connected : Bool) (dur : Option Int) (paused : Bool)
    (lastPos lastUpd nowMs : Int) : Int :=
  match dur with
  | none => 0
  | some d =>
    if !connected then 0
    else if paused then min lastPos d
    else if lastPos + (nowMs - lastUpd) > d then 0
    else min (lastPos + (nowMs - lastUpd)) d

/-- Spec-side abstraction of the handshake for the amended C1: an automaton
over fragment *presence* only, counting one dispatch per submission at
which both fragments are stored (a disconnect clears both fragments and
never dispatches). -/
def specVoiceCount : Bool → Bool → List VIn → Nat
  | _, _, [] => 0
  | hasS, _, .serverUpdate _ :: is =>
    (if hasS then 1 else 0) + specVoiceCount hasS true is
  | _, _, .stateUpdate _ none :: is => specVoiceCount false false is
  | _, hasE, .stateUpdate _ (some _) :: is =>
    (if hasE then 1 else 0) + specVoiceCount true hasE is

/-- A raw info dict with every key absent. -/
def infoEmpty : TrackInfo :=
  { title := none, identifier := none, length := none, uri := none,
    author := none, isStream := none }

/-- A raw info dict whose identifier matches the 11-character pattern. -/
def infoYT : TrackInfo :=
  { title := some "Song", identifier := some "dQw4w9WgXcQ",
    length := some 212000, uri := some "https://y.t/w", author := some "A",
    isStream := some false }

/-- A raw info dict whose identifier does not match the pattern. -/
def infoOdd : TrackInfo :=
  { title := some "Mix", identifier := some "not eleven chars",
    length := some 98000, uri := some "https://s.c/m", author := some "B",
    isStream := some false }

/-- A concrete constructed track used by witness states. -/
def trackA : Track :=
  { id := "b64token", info := infoYT, query := none, title := some "Song",
    identifier := some "dQw4w9WgXcQ", ytid := some "dQw4w9WgXcQ",
    length := some 212000, duration := some 212000,
    uri := some "https://y.t/w", author := some "A", isStream := some false,
    dead := false,
    thumb := some "https://img.youtube.com/vi/dQw4w9WgXcQ/maxresdefault.jpg" }

/-- A concrete mid-playback session on node 0: connected, both handshake
fragments stored, paused at 2000ms into `trackA`, volume 150. -/
def pW : Player :=
  { playerId := 1, guildId := 7, channelId := 5, nodeId := 0,
    voiceState := ⟨some "sess", some "evt"⟩, connected := true,
    last_update := 1000, last_position := 2000, position_timestamp := 0,
    volume := 150, paused := true, track := some trackA }

/-- A concrete world: `pW` registered on node 0; node 1 is a free node. -/
def w0 : World :=
  { player := pW,
    nodes := fun n => if n = 0 then ⟨true, [(7, 1)]⟩ else ⟨true, []⟩ }

/-- Delivery oracle for which every send succeeds. -/
def okAll : Nat → Cmd → Bool := fun _ _ => true

/-- Delivery oracle for which every send fails. -/
def okNone : Nat → Cmd → Bool := fun _ _ => false

/-- Delivery oracle failing exactly the `destroy` sends. -/
def okNoDestroy : Nat → Cmd → Bool := fun _ c =>
  match c with
  | .destroy _ => false
  | _ => true

/-- A selector that always reports node 1 as the best node. -/
def sel1 : World → Option Nat := fun _ => some 1

/-- A selector that finds no eligible node. -/
def selNone : World → Option Nat := fun _ => none


/-- The merged voice-update commands `_dispatch_voice_update` would send
for a given player: empty unless both fragments are stored. -/
def vuCmds (p : Player) : List Cmd :=
  match p.voiceState.sessionId, p.voiceState.event with
  | some sid, some ev => [Cmd.voiceUpdate (toString p.guildId) sid ev]
  | _, _ => []

/-- The value of `int(self.position)` on the paths where it does not
raise. -/
def posOf (p : Player) (nowMs : Int) : Int :=
  match p.position nowMs with
  | .ok v => v
  | .error _ => 0

/-- World state of a changeover right after the registry handover: session
removed from the old node's registry, `nodeRef` reassigned, session
inserted into the new node's registry. -/
def midWorld (w : World) (nid : Nat) : World :=
  let w1 := w.updNode w.player.nodeId
      (fun n => { n with players := removeReg n.players w.player.guildId })
  let w2 := { w1 with player := { w1.player with nodeId := nid } }
  w2.updNode nid
    (fun n => { n with players := insertReg n.players w.player.guildId w.player.playerId })

/-- Final world of a successful changeover: `midWorld`, with `last_update`
stamped to `now` when a track was replayed. -/
def tailWorld (w : World) (nid : Nat) (now : Int) : World :=
  let w2 := midWorld w nid
  if w.player.track.isSome then
    { w2 with player := { w2.player with last_update := now } }
  else w2

/-- Events of the state replay on the new node during a successful
changeover: nothing without a track; otherwise the `play` at the current
position, the `last_update` stamp, and the conditional `pause`. -/
def replayEvents (p : Player) (nid : Nat) (now : Int) : List Ev :=
  match p.track with
  | none => []
  | some t =>
    [Ev.send nid (Cmd.play (toString p.guildId) t.id none (posOf p now) none),
     Ev.setLastUpdate now]
    ++ (if p.paused then
          [Ev.send nid (Cmd.pause (toString p.guildId) p.paused)]
        else [])

/-- Full event trace of a successful `change_node_tail`. -/
def tailTrace (w : World) (nid : Nat) (now : Int) : List Ev :=
  [Ev.delPlayer w.player.nodeId w.player.guildId,
   Ev.send w.player.nodeId (Cmd.destroy (toString w.player.guildId)),
   Ev.setNode nid, Ev.addPlayer nid w.player.guildId]
  ++ (vuCmds w.player).map (Ev.send nid)
  ++ replayEvents w.player nid now
  ++ (if w.player.volume ≠ 100 then
        [Ev.send nid (Cmd.volume (toString w.player.guildId) w.player.volume)]
      else [])


/-! ## Helper lemmas -/

theorem lookupReg_removeReg_self (ps : List (Nat × Nat)) (gid : Nat) :
    lookupReg (removeReg ps gid) gid = none := by
  induction ps with
  | nil => rfl
  | cons kv rest ih =>
    by_cases h : kv.1 = gid <;> simp [removeReg, h, lookupReg, ih]

theorem lookupReg_insertReg_self (ps : List (Nat × Nat)) (gid pid : Nat) :
    lookupReg (insertReg ps gid pid) gid = some pid := by
  simp [insertReg, lookupReg]

theorem position_set_nodeId (p : Player) (n : Nat) (nowMs : Int) :
    Player.position { p with nodeId := n } nowMs = p.position nowMs := rfl

/-! ## Claim theorems -/

/-- C9: `Track` construction derives `thumb` from a matching 11-character
identifier and leaves it absent on a non-matching identifier, but when the
`identifier` key is absent from `info` the constructor raises `TypeError`
(from `re.match` applied to `None`) instead of leaving `thumb` absent —
contradicting the class's own docstring, which says the identifier "could
be None depending on track type". -/
theorem c9_track_thumb :
    Track.ofInfo "b64a" infoEmpty = .error .typeError
    ∧ Track.ofInfo "b64b" infoYT
        = .ok { id := "b64b", info := infoYT, query := none,
                title := some "Song", identifier := some "dQw4w9WgXcQ",
                ytid := some "dQw4w9WgXcQ", length := some 212000,
                duration := some 212000, uri := some "https://y.t/w",
                author := some "A", isStream := some false, dead := false,
                thumb := some "https://img.youtube.com/vi/dQw4w9WgXcQ/maxresdefault.jpg" }
    ∧ (Track.ofInfo "b64c" infoOdd).toOption.map Track.thumb = some none :=
  ⟨rfl, rfl, rfl⟩

/-- C8: after `set_volume(v)` the stored volume is `clamp(v, 0, 1000)`, the
sent `volume` payload carries the same clamped value, the result lies in
[0, 1000], and a fresh session starts at the default 100. -/
theorem c8_set_volume (p : Player) (ok : Nat → Cmd → Bool) (v : Int)
    (i g c n : Nat) :
    (p.set_volume ok v).2.1.volume = max (min v 1000) 0
    ∧ (p.set_volume ok v).2.2
        = [Ev.send p.nodeId (Cmd.volume (toString p.guildId) (max (min v 1000) 0))]
    ∧ 0 ≤ (p.set_volume ok v).2.1.volume
    ∧ (p.set_volume ok v).2.1.volume ≤ 1000
    ∧ (Player.fresh i g c n).volume = 100 := by
  have key : (p.set_volume ok v).2
      = ({ p with volume := max (min v 1000) 0 },
         [Ev.send p.nodeId (Cmd.volume (toString p.guildId) (max (min v 1000) 0))]) := by
    unfold Player.set_volume
    dsimp only
    split <;> rfl
  have h1 : (p.set_volume ok v).2.1.volume = max (min v 1000) 0 := by rw [key]
  refine ⟨h1, by rw [key], ?_, ?_, rfl⟩ <;> rw [h1] <;> omega

/-- C2: `play(t, replace, start, end)` is a strict no-op when
`replace = false` and the session is playing; otherwise it zeroes the three
timing fields, clears `paused`, loads the track and sends exactly one
`play` payload with `noReplace = not replace`, `startTime = start`, and an
`endTime` field present iff `end > 0`. -/
theorem c2_play (p : Player) (ok : Nat → Cmd → Bool) (t : Track)
    (replace : Bool) (start endMs : Int) :
    (replace = false → p.is_playing = true →
      p.play ok t replace start endMs = (.ok (), p, []))
    ∧ ((replace = true ∨ p.is_playing = false) →
      (p.play ok t replace start endMs).2.1.last_update = 0
      ∧ (p.play ok t replace start endMs).2.1.last_position = 0
      ∧ (p.play ok t replace start endMs).2.1.position_timestamp = 0
      ∧ (p.play ok t replace start endMs).2.1.paused = false
      ∧ (p.play ok t replace start endMs).2.1.track = some t
      ∧ (p.play ok t replace start endMs).2.2
          = [Ev.send p.nodeId (Cmd.play (toString p.guildId) t.id
              (some (!replace)) start (if endMs > 0 then some endMs else none))]) := by
  constructor
  · intro h1 h2
    simp [Player.play, h1, h2]
  · intro h
    have hc : (replace || !p.is_playing) = true := by
      rcases h with h | h <;> simp [h]
    have key : (p.play ok t replace start endMs).2
        = ({ p with
              last_update := 0, last_position := 0,
              position_timestamp := 0, paused := false, track := some t },
           [Ev.send p.nodeId (Cmd.play (toString p.guildId) t.id
              (some (!replace)) start (if endMs > 0 then some endMs else none))]) := by
      unfold Player.play
      dsimp only
      split
      · split <;> split <;> rfl
      · next hfalse => exact (hfalse hc).elim
    exact ⟨by rw [key], by rw [key], by rw [key], by rw [key], by rw [key],
      by rw [key]⟩

/-- Helper: `position` computed against the specification formula. -/
theorem position_eq_spec (p : Player) (nowMs : Int)
    (h : ∀ t, p.track = some t → t.duration.isSome = true) :
    p.position nowMs
      = .ok (positionSpec p.connected (p.track.bind Track.duration) p.paused
          p.last_position p.last_update nowMs) := by
  cases htr : p.track with
  | none =>
    simp [Player.position, positionSpec, Player.is_playing,
      Player.is_connected, htr]
  | some t =>
    have hd := h t htr
    cases hdur : t.duration with
    | none => rw [hdur] at hd; simp at hd
    | some d =>
      cases hc : p.connected with
      | false =>
        simp [Player.position, positionSpec, Player.is_playing,
          Player.is_connected, htr, hdur, hc]
      | true =>
        cases hp : p.paused with
        | true =>
          simp [Player.position, positionSpec, Player.is_playing,
            Player.is_connected, Player.is_paused, htr, hdur, hc, hp]
        | false =>
          simp only [Player.position, positionSpec, Player.is_playing,
            Player.is_connected, Player.is_paused, htr, hdur, hc, hp,
            Option.isSome_some, Bool.and_true, Bool.and_self, Option.some_bind,
            Bool.not_true, Bool.false_eq_true, not_false_eq_true, if_false,
            Bool.true_and, not_true_eq_false]
          split <;> rfl

/-- C3: `position` equals the specification's formula: 0 when not
connected or no track, `min(lastPositionMs, duration)` when paused,
otherwise the interpolated `lastPositionMs + (now − lastUpdateTimestampMs)`
replaced by 0 past the duration and clamped to the duration; it reads the
session fields and mutates nothing (a pure function of session state and
the clock). -/
theorem c3_position (p : Player) (nowMs : Int)
    (h : ∀ t, p.track = some t → t.duration.isSome = true) :
    p.position nowMs
      = .ok (positionSpec p.connected (p.track.bind Track.duration) p.paused
          p.last_position p.last_update nowMs) :=
  position_eq_spec p nowMs h

/-- C3 witness: the paused concrete session `pW` read at `now = 3000`. -/
theorem c3_position_witness :
    pW.position 3000
      = .ok (positionSpec pW.connected (pW.track.bind Track.duration)
          pW.paused pW.last_position pW.last_update 3000) :=
  c3_position pW 3000 (by intro t ht; injection ht with h; rw [← h]; rfl)

/-- C2 witness: `play(trackA, replace=true)` on the concrete playing
session `pW`. -/
theorem c2_play_witness :
    (pW.play okAll trackA true 0 0).2.1.last_update = 0
    ∧ (pW.play okAll trackA true 0 0).2.1.last_position = 0
    ∧ (pW.play okAll trackA true 0 0).2.1.position_timestamp = 0
    ∧ (pW.play okAll trackA true 0 0).2.1.paused = false
    ∧ (pW.play okAll trackA true 0 0).2.1.track = some trackA
    ∧ (pW.play okAll trackA true 0 0).2.2
        = [Ev.send pW.nodeId (Cmd.play (toString pW.guildId) trackA.id
            (some (!true)) 0 (if (0 : Int) > 0 then some (0 : Int) else none))] :=
  (c2_play pW okAll trackA true 0 0).2 (Or.inl rfl)

/-- C10: `set_volume` writes its clamped mirror before the send, so the
mirror holds the clamped value even when the send fails; `set_pause` and
`stop` send first and mutate after, so on a failed send `paused` is
unchanged and `track` stays non-null — `stop` clears `track` only once the
send completes. -/
theorem c10_mutation_order (p : Player) (v : Int) (b : Bool)
    (okF okT : Nat → Cmd → Bool)
    (hv : okF p.nodeId (Cmd.volume (toString p.guildId) (max (min v 1000) 0)) = false)
    (hp : okF p.nodeId (Cmd.pause (toString p.guildId) b) = false)
    (hs : okF p.nodeId (Cmd.stop (toString p.guildId)) = false)
    (ht : okT p.nodeId (Cmd.stop (toString p.guildId)) = true) :
    ((p.set_volume okF v).1 = .error .transport
      ∧ (p.set_volume okF v).2.1.volume = max (min v 1000) 0)
    ∧ ((p.set_pause okF b).1 = .error .transport
      ∧ (p.set_pause okF b).2.1.paused = p.paused)
    ∧ ((p.stop okF).1 = .error .transport ∧ (p.stop okF).2.1.track = p.track)
    ∧ (p.stop okT).2.1.track = none := by
  refine ⟨⟨?_, ?_⟩, ⟨?_, ?_⟩, ⟨?_, ?_⟩, ?_⟩ <;>
    simp [Player.set_volume, Player.set_pause, Player.stop, hv, hp, hs, ht]

/-- C10 witness: the concrete session `pW` under an all-failing and an
all-succeeding delivery oracle. -/
theorem c10_mutation_order_witness :
    ((pW.set_volume okNone 1500).1 = .error .transport
      ∧ (pW.set_volume okNone 1500).2.1.volume = max (min 1500 1000) 0)
    ∧ ((pW.set_pause okNone false).1 = .error .transport
      ∧ (pW.set_pause okNone false).2.1.paused = pW.paused)
    ∧ ((pW.stop okNone).1 = .error .transport
      ∧ (pW.stop okNone).2.1.track = pW.track)
    ∧ (pW.stop okAll).2.1.track = none :=
  c10_mutation_order pW 1500 false okNone okAll rfl rfl rfl rfl

/-- C1 counterexample: from a fresh session, submitting the event fragment
then the token fragment dispatches once, but re-submitting the identical
token fragment dispatches the very same merged pair a second time — the
handshake does not dispatch "exactly once per distinct (sessionToken,
event) pair". -/
theorem c1_counterexample :
    (runVoice (Player.fresh 1 7 5 0)
        [VIn.serverUpdate "evt", VIn.stateUpdate "sess" (some 5),
         VIn.stateUpdate "sess" (some 5)]).2
      = [Cmd.voiceUpdate "7" "sess" "evt", Cmd.voiceUpdate "7" "sess" "evt"]
    ∧ ¬ ((runVoice (Player.fresh 1 7 5 0)
        [VIn.serverUpdate "evt", VIn.stateUpdate "sess" (some 5),
         VIn.stateUpdate "sess" (some 5)]).2.count
          (Cmd.voiceUpdate "7" "sess" "evt") ≤ 1) :=
  ⟨rfl, by decide⟩

/-- C1 amended: the handshake dispatches the merged voice update exactly
once per fragment submission at which both fragments are stored (zero
while only one has arrived; a disconnect clears both and dispatches
nothing), so a new — or even identical — `sessionToken` or `event` value
arriving after a previous merge re-triggers exactly one new dispatch:
dispatch count is per qualifying submission, not per distinct pair. -/
theorem c1_amended_dispatch_per_submission (p : Player) (ins : List VIn) :
    (runVoice p ins).2.length
      = specVoiceCount p.voiceState.sessionId.isSome p.voiceState.event.isSome
          ins := by
  induction ins generalizing p with
  | nil => rfl
  | cons i is ih =>
    cases i with
    | serverUpdate e =>
      cases hs : p.voiceState.sessionId <;>
        simp [runVoice, voiceStep, Player.on_voice_server_update,
          Player.dispatch_voice_update, hs, specVoiceCount, ih] <;> omega
    | stateUpdate s c =>
      cases c with
      | none =>
        simp [runVoice, voiceStep, Player.on_voice_state_update,
          specVoiceCount, ih]
      | some cid =>
        cases he : p.voiceState.event <;>
          simp [runVoice, voiceStep, Player.on_voice_state_update,
            Player.dispatch_voice_update, he, specVoiceCount, ih] <;> omega

theorem position_isOk (p : Player) (nowMs : Int)
    (hdur : ∀ t, p.track = some t → t.duration.isSome = true) :
    p.position nowMs = .ok (posOf p nowMs) := by
  have h := position_eq_spec p nowMs hdur
  unfold posOf
  rw [h]

theorem posOf_set_nodeId (p : Player) (n : Nat) (nowMs : Int) :
    posOf { p with nodeId := n } nowMs = posOf p nowMs := by
  unfold posOf
  rw [position_set_nodeId]

theorem change_node_tail_success (w : World) (nid : Nat)
    (ok : Nat → Cmd → Bool) (now : Int) (pid : Nat)
    (hok : ∀ n c, ok n c = true)
    (hreg : lookupReg (w.nodes w.player.nodeId).players w.player.guildId
        = some pid)
    (hdur : ∀ t, w.player.track = some t → t.duration.isSome = true) :
    change_node_tail w nid ok now
      = (.ok (), tailWorld w nid now, tailTrace w nid now) := by
  unfold change_node_tail
  dsimp only [World.updNode]
  rw [hreg]
  unfold change_node_track change_node_vol tailWorld tailTrace midWorld
    replayEvents vuCmds Player.is_paused
  dsimp only [World.updNode]
  simp only [hok, Bool.not_true, Bool.false_eq_true, if_false]
  simp only [position_set_nodeId]
  rw [position_isOk w.player now hdur]
  dsimp only
  cases hs : w.player.voiceState.sessionId with
  | none =>
    cases htr : w.player.track with
    | none => simp [hs, htr, hok] <;> (try (split <;> rfl))
    | some t =>
      cases hp : w.player.paused <;> simp [hs, htr, hp, hok] <;>
        (try (split <;> rfl))
  | some sid =>
    cases he : w.player.voiceState.event with
    | none =>
      cases htr : w.player.track with
      | none => simp [hs, he, htr, hok] <;> (try (split <;> rfl))
      | some t =>
        cases hp : w.player.paused <;> simp [hs, he, htr, hp, hok] <;>
          (try (split <;> rfl))
    | some ev =>
      cases htr : w.player.track with
      | none => simp [hs, he, htr, hok] <;> (try (split <;> rfl))
      | some t =>
        cases hp : w.player.paused <;> simp [hs, he, htr, hp, hok] <;>
          (try (split <;> rfl))

theorem tailWorld_player_nodeId (w : World) (nid : Nat) (now : Int) :
    (tailWorld w nid now).player.nodeId = nid := by
  unfold tailWorld midWorld World.updNode
  dsimp only
  split <;> rfl

theorem tailWorld_player_last_update (w : World) (nid : Nat) (now : Int)
    (h : w.player.track.isSome = true) :
    (tailWorld w nid now).player.last_update = now := by
  unfold tailWorld midWorld World.updNode
  simp [h]

theorem tailWorld_nodes_new (w : World) (nid : Nat) (now : Int) :
    lookupReg ((tailWorld w nid now).nodes nid).players w.player.guildId
      = some w.player.playerId := by
  unfold tailWorld midWorld World.updNode
  dsimp only
  split <;> simp [lookupReg_insertReg_self]

theorem tailWorld_nodes_old (w : World) (nid : Nat) (now : Int)
    (hne : nid ≠ w.player.nodeId) :
    lookupReg ((tailWorld w nid now).nodes w.player.nodeId).players
      w.player.guildId = none := by
  unfold tailWorld midWorld World.updNode
  dsimp only
  split <;> simp [Ne.symm hne, lookupReg_removeReg_self]

theorem regEvents_tailTrace (w : World) (nid : Nat) (now : Int) :
    regEvents (tailTrace w nid now)
      = [Ev.delPlayer w.player.nodeId w.player.guildId,
         Ev.addPlayer nid w.player.guildId] := by
  unfold tailTrace regEvents replayEvents vuCmds
  cases w.player.voiceState.sessionId <;> cases w.player.voiceState.event <;>
    cases w.player.track <;> by_cases hp : w.player.paused = true <;>
    by_cases hv : w.player.volume = 100 <;> simp [hp, hv]

theorem sendsTo_tailTrace (w : World) (nid : Nat) (now : Int)
    (hne : nid ≠ w.player.nodeId) :
    sendsTo (tailTrace w nid now) nid
      = vuCmds w.player
        ++ (match w.player.track with
            | none => []
            | some t =>
              [Cmd.play (toString w.player.guildId) t.id none
                  (posOf w.player now) none]
              ++ (if w.player.paused then
                    [Cmd.pause (toString w.player.guildId) w.player.paused]
                  else []))
        ++ (if w.player.volume ≠ 100 then
              [Cmd.volume (toString w.player.guildId) w.player.volume]
            else []) := by
  have hne' : w.player.nodeId ≠ nid := Ne.symm hne
  unfold tailTrace sendsTo replayEvents vuCmds
  cases w.player.voiceState.sessionId <;> cases w.player.voiceState.event <;>
    cases w.player.track <;> by_cases hp : w.player.paused = true <;>
    by_cases hv : w.player.volume = 100 <;> simp [hp, hv, hne']

theorem change_node_success (w : World) (explicit : Option Nat)
    (selector : World → Option Nat) (ok : Nat → Cmd → Bool) (now : Int)
    (pid : Nat)
    (hok : ∀ n c, ok n c = true)
    (hreg : lookupReg (w.nodes w.player.nodeId).players w.player.guildId
        = some pid)
    (hdur : ∀ t, w.player.track = some t → t.duration.isSome = true)
    (hexp : ∀ n, explicit = some n → n ≠ w.player.nodeId)
    (hsome : explicit = none → (selector w.closeCurrent).isSome = true)
    (hsel : ∀ n, selector w.closeCurrent = some n →
        (w.closeCurrent.nodes n).isOpen = true) :
    ∃ nid w' pre,
      nid ≠ w.player.nodeId
      ∧ w'.player = w.player
      ∧ (∀ m, (w'.nodes m).players = (w.nodes m).players)
      ∧ (pre = []
          ∨ pre = [Ev.closeNode w.player.nodeId, Ev.openNode w.player.nodeId])
      ∧ change_node w explicit selector ok now
          = (.ok (), tailWorld w' nid now, pre ++ tailTrace w' nid now) := by
  cases explicit with
  | some nid =>
    have hne := hexp nid rfl
    refine ⟨nid, w, [], hne, rfl, fun m => rfl, Or.inl rfl, ?_⟩
    have htail := change_node_tail_success w nid ok now pid hok hreg hdur
    simp [change_node, hne, htail]
  | none =>
    obtain ⟨nid, hsome'⟩ := Option.isSome_iff_exists.mp (hsome rfl)
    have hopen := hsel nid hsome'
    have hclosed : (w.closeCurrent.nodes w.player.nodeId).isOpen = false := by
      unfold World.closeCurrent World.updNode
      simp
    have hne : nid ≠ w.player.nodeId := by
      intro h
      rw [h, hclosed] at hopen
      exact Bool.false_ne_true hopen
    refine ⟨nid,
      (w.closeCurrent).updNode w.player.nodeId
        (fun n => { n with isOpen := true }), _, hne, rfl, ?_, Or.inr rfl, ?_⟩
    · intro m
      unfold World.closeCurrent World.updNode
      dsimp only
      split <;> rfl
    · have hreg2 : lookupReg
          (((w.closeCurrent).updNode w.player.nodeId
              (fun n => { n with isOpen := true })).nodes
            ((w.closeCurrent).updNode w.player.nodeId
              (fun n => { n with isOpen := true })).player.nodeId).players
          ((w.closeCurrent).updNode w.player.nodeId
            (fun n => { n with isOpen := true })).player.guildId = some pid := by
        unfold World.closeCurrent World.updNode
        simpa using hreg
      have hdur2 : ∀ t,
          ((w.closeCurrent).updNode w.player.nodeId
            (fun n => { n with isOpen := true })).player.track = some t
          → t.duration.isSome = true := fun t ht => hdur t ht
      have htail := change_node_tail_success
        ((w.closeCurrent).updNode w.player.nodeId
          (fun n => { n with isOpen := true })) nid ok now pid hok hreg2 hdur2
      simp [change_node, hsome', htail]

/-- C5: `change_node` to the session's current node fails with
`WavelinkException('Player is already on this node.')`; `change_node()`
with no explicit node fails with `WavelinkException('No Nodes available
for changeover.')` when the selector finds nothing; in both cases no
command is sent (the traces hold no `send` events) and the session —
`nodeRef` included — is unchanged. -/
theorem c5_change_node_failures (w : World) (selector : World → Option Nat)
    (ok : Nat → Cmd → Bool) (now : Int)
    (hsel : selector w.closeCurrent = none) :
    (change_node w (some w.player.nodeId) selector ok now).1
        = .error (.wavelink "Player is already on this node.")
    ∧ (change_node w (some w.player.nodeId) selector ok now).2.1 = w
    ∧ (change_node w (some w.player.nodeId) selector ok now).2.2 = []
    ∧ (change_node w none selector ok now).1
        = .error (.wavelink "No Nodes available for changeover.")
    ∧ (change_node w none selector ok now).2.1.player = w.player
    ∧ (change_node w none selector ok now).2.2
        = [Ev.closeNode w.player.nodeId, Ev.openNode w.player.nodeId] := by
  refine ⟨?_, ?_, ?_, ?_, ?_, ?_⟩
  · simp [change_node]
  · simp [change_node]
  · simp [change_node]
  · simp only [change_node]
    rw [hsel]
  · simp only [change_node]
    rw [hsel]
    exact rfl
  · simp only [change_node]
    rw [hsel]

/-- C5 witness: the concrete world `w0` with an empty selector. -/
theorem c5_change_node_failures_witness :
    (change_node w0 (some w0.player.nodeId) selNone okAll 3000).1
        = .error (.wavelink "Player is already on this node.")
    ∧ (change_node w0 (some w0.player.nodeId) selNone okAll 3000).2.1 = w0
    ∧ (change_node w0 (some w0.player.nodeId) selNone okAll 3000).2.2 = []
    ∧ (change_node w0 none selNone okAll 3000).1
        = .error (.wavelink "No Nodes available for changeover.")
    ∧ (change_node w0 none selNone okAll 3000).2.1.player = w0.player
    ∧ (change_node w0 none selNone okAll 3000).2.2
        = [Ev.closeNode w0.player.nodeId, Ev.openNode w0.player.nodeId] :=
  c5_change_node_failures w0 selNone okAll 3000 rfl

/-- C7 counterexample: with a delivery oracle failing exactly the
`destroy` sends, `change_node` on the concrete world `w0` propagates the
transport error instead of logging and ignoring it: the changeover does
not complete — `nodeRef` still points at node 0, the session was never
inserted into node 1's registry, and no command reached node 1. -/
theorem c7_counterexample :
    (change_node w0 (some 1) sel1 okNoDestroy 3000).1 = .error .transport
    ∧ (change_node w0 (some 1) sel1 okNoDestroy 3000).2.1.player.nodeId = 0
    ∧ ((change_node w0 (some 1) sel1 okNoDestroy 3000).2.1.nodes 1).players = []
    ∧ sendsTo (change_node w0 (some 1) sel1 okNoDestroy 3000).2.2 1 = [] :=
  ⟨rfl, rfl, rfl, rfl⟩

/-- C7 amended: `change_node` has no handler around the `destroy` send to
the old node, so a delivery failure there is fatal to the changeover: the
error propagates to the caller, `nodeRef` still points at the old node,
the session — already removed from the old node's registry — is inserted
nowhere, and no state replay happens (the trace stops at the failed
`destroy`). -/
theorem c7_amended_destroy_failure_fatal (w : World) (nid : Nat)
    (selector : World → Option Nat) (ok : Nat → Cmd → Bool) (now : Int)
    (hne : nid ≠ w.player.nodeId)
    (hreg : lookupReg (w.nodes w.player.nodeId).players w.player.guildId
        = some w.player.playerId)
    (hfail : ok w.player.nodeId (Cmd.destroy (toString w.player.guildId))
        = false) :
    (change_node w (some nid) selector ok now).1 = .error .transport
    ∧ (change_node w (some nid) selector ok now).2.1.player = w.player
    ∧ lookupReg ((change_node w (some nid) selector ok now).2.1.nodes
        w.player.nodeId).players w.player.guildId = none
    ∧ (∀ m, m ≠ w.player.nodeId →
        (change_node w (some nid) selector ok now).2.1.nodes m = w.nodes m)
    ∧ (change_node w (some nid) selector ok now).2.2
        = [Ev.delPlayer w.player.nodeId w.player.guildId,
           Ev.send w.player.nodeId (Cmd.destroy (toString w.player.guildId))] := by
  have key : change_node w (some nid) selector ok now
      = (.error .transport,
         w.updNode w.player.nodeId
           (fun n => { n with players := removeReg n.players w.player.guildId }),
         [Ev.delPlayer w.player.nodeId w.player.guildId,
          Ev.send w.player.nodeId (Cmd.destroy (toString w.player.guildId))]) := by
    unfold change_node change_node_tail
    dsimp only
    simp [hne, hreg, hfail]
  rw [key]
  refine ⟨rfl, rfl, ?_, ?_, rfl⟩
  · simp [World.updNode, lookupReg_removeReg_self]
  · intro m hm
    simp [World.updNode, hm]

/-- C7 amended witness: the concrete world `w0` with the destroy-failing
oracle. -/
theorem c7_amended_destroy_failure_fatal_witness :
    (change_node w0 (some 1) selNone okNoDestroy 3000).1 = .error .transport
    ∧ (change_node w0 (some 1) selNone okNoDestroy 3000).2.1.player = w0.player
    ∧ lookupReg ((change_node w0 (some 1) selNone okNoDestroy 3000).2.1.nodes
        w0.player.nodeId).players w0.player.guildId = none
    ∧ (∀ m, m ≠ w0.player.nodeId →
        (change_node w0 (some 1) selNone okNoDestroy 3000).2.1.nodes m
          = w0.nodes m)
    ∧ (change_node w0 (some 1) selNone okNoDestroy 3000).2.2
        = [Ev.delPlayer w0.player.nodeId w0.player.guildId,
           Ev.send w0.player.nodeId (Cmd.destroy (toString w0.player.guildId))] :=
  c7_amended_destroy_failure_fatal w0 1 selNone okNoDestroy 3000 (by decide)
    rfl rfl

/-- C6: after a successful `change_node` the new node's registry maps the
session's guild id to the session and the old node's registry no longer
holds that key; the registry-mutation subtrace is exactly the removal from
the old node followed by the insertion into the new one, so the session is
never registered on two nodes at once on the successful path. -/
theorem c6_registry_handover (w : World) (explicit : Option Nat)
    (selector : World → Option Nat) (ok : Nat → Cmd → Bool) (now : Int)
    (hok : ∀ n c, ok n c = true)
    (hreg : lookupReg (w.nodes w.player.nodeId).players w.player.guildId
        = some w.player.playerId)
    (hdur : ∀ t, w.player.track = some t → t.duration.isSome = true)
    (hexp : ∀ n, explicit = some n → n ≠ w.player.nodeId)
    (hsome : explicit = none → (selector w.closeCurrent).isSome = true)
    (hsel : ∀ n, selector w.closeCurrent = some n →
        (w.closeCurrent.nodes n).isOpen = true) :
    (change_node w explicit selector ok now).1 = .ok ()
    ∧ (change_node w explicit selector ok now).2.1.player.nodeId
        ≠ w.player.nodeId
    ∧ lookupReg ((change_node w explicit selector ok now).2.1.nodes
          (change_node w explicit selector ok now).2.1.player.nodeId).players
        w.player.guildId = some w.player.playerId
    ∧ lookupReg ((change_node w explicit selector ok now).2.1.nodes
          w.player.nodeId).players w.player.guildId = none
    ∧ regEvents (change_node w explicit selector ok now).2.2
        = [Ev.delPlayer w.player.nodeId w.player.guildId,
           Ev.addPlayer
             (change_node w explicit selector ok now).2.1.player.nodeId
             w.player.guildId] := by
  obtain ⟨nid, w', pre, hne, hpl, hnodes, hpre, heq⟩ :=
    change_node_success w explicit selector ok now w.player.playerId
      hok hreg hdur hexp hsome hsel
  rw [heq]
  dsimp only
  rw [tailWorld_player_nodeId]
  have hnew := tailWorld_nodes_new w' nid now
  have hold := tailWorld_nodes_old w' nid now (by rw [hpl]; exact hne)
  rw [hpl] at hnew hold
  have hregs := regEvents_tailTrace w' nid now
  rw [hpl] at hregs
  have hpre' : regEvents pre = [] := by
    rcases hpre with h | h <;> subst h <;> rfl
  refine ⟨rfl, hne, hnew, hold, ?_⟩
  unfold regEvents at hpre' hregs ⊢
  rw [List.filter_append, hpre', hregs]
  rfl

/-- C6 witness: the concrete world `w0` moved explicitly to node 1. -/
theorem c6_registry_handover_witness :
    (change_node w0 (some 1) sel1 okAll 3000).1 = .ok ()
    ∧ (change_node w0 (some 1) sel1 okAll 3000).2.1.player.nodeId
        ≠ w0.player.nodeId
    ∧ lookupReg ((change_node w0 (some 1) sel1 okAll 3000).2.1.nodes
          (change_node w0 (some 1) sel1 okAll 3000).2.1.player.nodeId).players
        w0.player.guildId = some w0.player.playerId
    ∧ lookupReg ((change_node w0 (some 1) sel1 okAll 3000).2.1.nodes
          w0.player.nodeId).players w0.player.guildId = none
    ∧ regEvents (change_node w0 (some 1) sel1 okAll 3000).2.2
        = [Ev.delPlayer w0.player.nodeId w0.player.guildId,
           Ev.addPlayer (change_node w0 (some 1) sel1 okAll 3000).2.1.player.nodeId
             w0.player.guildId] :=
  c6_registry_handover w0 (some 1) sel1 okAll 3000 (fun _ _ => rfl) rfl
    (fun t ht => by injection ht with h; rw [← h]; rfl)
    (fun n h => by injection h with h; subst h; decide)
    (fun h => by cases h)
    (fun n h => by injection h with h; subst h; rfl)

/-- C4: during a successful `change_node` with a loaded track, the
commands sent to the new node are, in order: the merged voice update iff
both handshake fragments are present, then a `play` whose `startTime`
equals the `position` value at the moment of changeover, then a `pause`
carrying the current paused value iff paused, then a `volume` iff the
volume differs from the default 100; and `last_update` is stamped with the
current time right after the `play`. -/
theorem c4_change_node_replay (w : World) (explicit : Option Nat)
    (selector : World → Option Nat) (ok : Nat → Cmd → Bool) (now pos : Int)
    (t : Track)
    (hok : ∀ n c, ok n c = true)
    (hreg : lookupReg (w.nodes w.player.nodeId).players w.player.guildId
        = some w.player.playerId)
    (ht : w.player.track = some t)
    (hdur : t.duration.isSome = true)
    (hpos : w.player.position now = .ok pos)
    (hexp : ∀ n, explicit = some n → n ≠ w.player.nodeId)
    (hsome : explicit = none → (selector w.closeCurrent).isSome = true)
    (hsel : ∀ n, selector w.closeCurrent = some n →
        (w.closeCurrent.nodes n).isOpen = true) :
    (change_node w explicit selector ok now).1 = .ok ()
    ∧ sendsTo (change_node w explicit selector ok now).2.2
          (change_node w explicit selector ok now).2.1.player.nodeId
        = vuCmds w.player
          ++ [Cmd.play (toString w.player.guildId) t.id none pos none]
          ++ (if w.player.paused then
                [Cmd.pause (toString w.player.guildId) w.player.paused]
              else [])
          ++ (if w.player.volume ≠ 100 then
                [Cmd.volume (toString w.player.guildId) w.player.volume]
              else [])
    ∧ (change_node w explicit selector ok now).2.1.player.last_update
        = now := by
  have hdurAll : ∀ t', w.player.track = some t' → t'.duration.isSome = true := by
    intro t' ht'
    rw [ht] at ht'
    injection ht' with h
    rw [← h]
    exact hdur
  obtain ⟨nid, w', pre, hne, hpl, hnodes, hpre, heq⟩ :=
    change_node_success w explicit selector ok now w.player.playerId
      hok hreg hdurAll hexp hsome hsel
  rw [heq]
  dsimp only
  rw [tailWorld_player_nodeId]
  have hsend := sendsTo_tailTrace w' nid now (by rw [hpl]; exact hne)
  rw [hpl] at hsend
  have hposOf : posOf w.player now = pos := by
    unfold posOf
    rw [hpos]
  rw [ht, hposOf] at hsend
  have hpre' : sendsTo pre nid = [] := by
    rcases hpre with h | h <;> subst h <;> rfl
  have happ : sendsTo (pre ++ tailTrace w' nid now) nid
      = sendsTo pre nid ++ sendsTo (tailTrace w' nid now) nid := by
    unfold sendsTo
    rw [List.filterMap_append]
  refine ⟨rfl, ?_, ?_⟩
  · rw [happ, hpre', hsend]
    simp [List.append_assoc]
  · exact tailWorld_player_last_update w' nid now (by rw [hpl, ht]; rfl)

/-- C4 witness: the concrete paused world `w0` (track loaded, both
fragments present, volume 150) moved explicitly to node 1 at `now = 3000`,
where the position reads 2000. -/
theorem c4_change_node_replay_witness :
    (change_node w0 (some 1) sel1 okAll 3000).1 = .ok ()
    ∧ sendsTo (change_node w0 (some 1) sel1 okAll 3000).2.2
          (change_node w0 (some 1) sel1 okAll 3000).2.1.player.nodeId
        = vuCmds w0.player
          ++ [Cmd.play (toString w0.player.guildId) trackA.id none 2000 none]
          ++ (if w0.player.paused then
                [Cmd.pause (toString w0.player.guildId) w0.player.paused]
              else [])
          ++ (if w0.player.volume ≠ 100 then
                [Cmd.volume (toString w0.player.guildId) w0.player.volume]
              else [])
    ∧ (change_node w0 (some 1) sel1 okAll 3000).2.1.player.last_update
        = 3000 :=
  c4_change_node_replay w0 (some 1) sel1 okAll 3000 2000 trackA
    (fun _ _ => rfl) rfl rfl rfl rfl
    (fun n h => by injection h with h; subst h; decide)
    (fun h => by cases h)
    (fun n h => by injection h with h; subst h; rfl)
